import Mathlib

/-!
Verification of the AarogyaMitra nearby-facility aggregation pipeline.

The definitions below shallow-embed the two near-duplicate backend modules
(`backend/aarogyaconnect.js`, the hospital pipeline, and
`backend/medicineAvailabilityServer.js`, the pharmacy pipeline).

Modelling conventions:
* JavaScript numbers driving the search logic are modelled as rationals.
  The floating-point haversine `calculateDistance` (trigonometry over IEEE
  doubles) is modelled separately over the reals; inside the search engine
  the distance computation is abstracted as a function parameter `dist`
  (the source calls its own `calculateDistance` there), so theorems about
  the engine hold for every possible distance function.
* External collaborators (the places API, the generation API, the geocoder)
  are modelled as explicit response arguments: `none` models a failed call
  (non-ok response or thrown error), `some xs` a successful parsed body.
* `JSON` string falsiness (`||` chains treating the empty string as false)
  is modelled by `firstTruthy`.
* `Map` objects keyed by strings are modelled as association lists in
  insertion order, matching the iteration order of a JavaScript `Map`.
* `Array.prototype.sort` with the comparator `(a, b) => a.distance - b.distance`
  is a stable sort (ES2019); it is modelled by `List.insertionSort` with the
  total relation `a.distance <= b.distance`, which is the stable sort.
-/

/-- JavaScript `Math.round` (round half toward positive infinity) on reals. -/
noncomputable def jsRoundR (x : ℝ) : ℝ := (⌊x + 1/2⌋ : ℤ)

/-- JavaScript `Math.atan2 y x`, modelled as the argument of the complex
number `x + y*i` (range `(-pi, pi]`, matching `atan2`). -/
noncomputable def jsAtan2 (y x : ℝ) : ℝ := Complex.arg ⟨x, y⟩

/-- The haversine intermediate `a` of `calculateDistance` in both backend
modules: `sin(dLat/2)^2 + cos(lat1*pi/180) * cos(lat2*pi/180) * sin(dLon/2)^2`
with `dLat = (lat2-lat1)*pi/180`, `dLon = (lon2-lon1)*pi/180`. -/
noncomputable def havA (lat1 lon1 lat2 lon2 : ℝ) : ℝ :=
  Real.sin ((lat2 - lat1) * Real.pi / 180 / 2) * Real.sin ((lat2 - lat1) * Real.pi / 180 / 2) +
  Real.cos (lat1 * Real.pi / 180) * Real.cos (lat2 * Real.pi / 180) *
    Real.sin ((lon2 - lon1) * Real.pi / 180 / 2) * Real.sin ((lon2 - lon1) * Real.pi / 180 / 2)

/-- `calculateDistance(lat1, lon1, lat2, lon2)` from both backend modules:
haversine on Earth radius 6371 km, `Math.round(distance*10)/10` at the end.
Modelled over the reals (the source computes with IEEE doubles). -/
noncomputable def calculateDistance (lat1 lon1 lat2 lon2 : ℝ) : ℝ :=
  jsRoundR (6371 * (2 * jsAtan2 (Real.sqrt (havA lat1 lon1 lat2 lon2))
      (Real.sqrt (1 - havA lat1 lon1 lat2 lon2))) * 10) / 10

/-! ## Facility search engine (hospitals and pharmacies)

Shallow embedding of `searchHospitalsMultiRadius` and
`searchNearbyPharmacies`.  The two functions differ only in their category
list, radius passes, name-fallback chain, dedup distance bound and result
ceiling, so they are both instances of one engine `searchFacilities`
parameterized by a `SearchConfig` (the pharmacy source stores no
`category` field on its result objects; the model keeps the field for both,
it is inert for every claim). -/

/-- One raw result (`feature`) from a places-API query, with the fields the
search code reads: `props.name`, `props.address_line1`, `props.street`,
`props.formatted`, `props.address_line2`, `props.city`,
`geometry.coordinates` and the two phone sources
(`props.datasource?.raw?.phone`, `props.contact?.phone`).  `none` models an
absent field. -/
structure RawFeature where
  name : Option String
  addressLine1 : Option String
  street : Option String
  formatted : Option String
  addressLine2 : Option String
  city : Option String
  lat : ℚ
  lon : ℚ
  rawPhone : Option String
  contactPhone : Option String
deriving DecidableEq

/-- A JavaScript `||` chain over possibly-absent strings: the first operand
that is neither absent nor the empty string wins, else the default. -/
def firstTruthy : List (Option String) → String → String
  | [], d => d
  | o :: rest, d =>
    match o with
    | none => firstTruthy rest d
    | some s => if s = "" then firstTruthy rest d else s

/-- The regex test `/^\d+$/.test(s)`: nonempty and all ASCII digits. -/
def isNumericStr (s : String) : Bool := !s.data.isEmpty && s.data.all Char.isDigit

/-- `s.trim()`: strip leading and trailing whitespace (structural
re-implementation of `String.trim` so that concrete runs reduce). -/
def trimStr (s : String) : String :=
  ⟨((s.data.dropWhile Char.isWhitespace).reverse.dropWhile Char.isWhitespace).reverse⟩

/-- `s.toLowerCase()` (ASCII lowering, as every string constant involved
is ASCII; structural re-implementation of `String.toLower`). -/
def lowerStr (s : String) : String := ⟨s.data.map Char.toLower⟩

/-- `name.toLowerCase().replace(/[^a-z0-9]/g, '')` as a character list. -/
def normalizeName (s : String) : List Char :=
  (lowerStr s).data.filter (fun c => decide (('a' ≤ c ∧ c ≤ 'z') ∨ ('0' ≤ c ∧ c ≤ '9')))

/-- `q.toFixed(3)` as an integer number of thousandths (round to nearest,
half up; the tie behavior of `toFixed` on doubles is abstracted). -/
def fix3 (q : ℚ) : ℤ := (q * 1000 + 1/2).floor

/-- One entry of the `searches` array: `{radius, limit}`.  The `limit` only
appears in the request URL (the server enforces it), so it does not
constrain the modelled response. -/
structure RadiusPass where
  radius : Nat
  limit : Nat
deriving DecidableEq

/-- The constants distinguishing the hospital engine from the pharmacy
engine. -/
structure SearchConfig where
  categories : List String
  searches : List RadiusPass
  useStreet : Bool
  defaultName : String
  synthBase : String
  maxDistanceKm : ℚ
  resultCeiling : Nat

/-- Configuration of `searchHospitalsMultiRadius`. -/
def hospitalConfig : SearchConfig where
  categories := ["healthcare.hospital", "healthcare.clinic", "healthcare.doctor", "healthcare"]
  searches := [⟨1000, 20⟩, ⟨3000, 20⟩, ⟨5000, 20⟩, ⟨10000, 15⟩]
  useStreet := true
  defaultName := "Healthcare Center"
  synthBase := "Healthcare Facility"
  maxDistanceKm := 15
  resultCeiling := 10

/-- Configuration of `searchNearbyPharmacies`. -/
def pharmacyConfig : SearchConfig where
  categories := ["commercial.pharmacy", "healthcare.pharmacy", "commercial.chemist"]
  searches := [⟨1000, 20⟩, ⟨3000, 20⟩, ⟨5000, 15⟩]
  useStreet := false
  defaultName := "Medical Store"
  synthBase := "Pharmacy"
  maxDistanceKm := 10
  resultCeiling := 12

/-- A deduplicated facility as stored in the search map. -/
structure Facility where
  name : String
  address : String
  latitude : ℚ
  longitude : ℚ
  distance : ℚ
  phone : String
  category : String
deriving DecidableEq

/-- The dedup key `normalizedName-lat.toFixed(3)-lon.toFixed(3)`, modelled
as the triple of its components. -/
abbrev DedupKey := List Char × ℤ × ℤ

def dedupKeyOf (name : String) (lat lon : ℚ) : DedupKey :=
  (normalizeName name, fix3 lat, fix3 lon)

/-- The dedup key of a stored facility, recomputed from its fields (the
source computes the key from exactly the name and coordinates it stores). -/
def dedupKey (fac : Facility) : DedupKey := dedupKeyOf fac.name fac.latitude fac.longitude

/-- The trimmed result of the name `||` chain
(name, first address line, street — street only in the hospital engine —
then the default literal) before the numeric-or-short test. -/
def resolvedRawName (cfg : SearchConfig) (f : RawFeature) : String :=
  trimStr (firstTruthy
    (f.name :: f.addressLine1 :: (if cfg.useStreet then [f.street] else []))
    cfg.defaultName)

/-- Display-name synthesis for one raw result: the trimmed chain result,
with the fallback to a synthesized `<base> ${Math.floor(distance * 10)}`
name when it is purely numeric (`/^\d+$/`) or shorter than 3 characters. -/
def mkName (cfg : SearchConfig) (f : RawFeature) (d : ℚ) : String :=
  if isNumericStr (resolvedRawName cfg f) || (resolvedRawName cfg f).length < 3 then
    cfg.synthBase ++ " " ++ toString (d * 10).floor
  else resolvedRawName cfg f

/-- `props.street || ''` and `props.city || ''`. -/
def stringOrEmpty : Option String → String
  | none => ""
  | some s => s

/-- Address extraction:
`props.formatted || props.address_line2 || (street city).trim() || literal`. -/
def mkAddress (f : RawFeature) : String :=
  firstTruthy [f.formatted, f.addressLine2,
    some (trimStr (stringOrEmpty f.street ++ " " ++ stringOrEmpty f.city))]
    "Address not available"

/-- Phone extraction with the `Not available` fallback. -/
def mkPhone (f : RawFeature) : String :=
  firstTruthy [f.rawPhone, f.contactPhone] "Not available"

/-- The distance collaborator: the source calls its floating-point
`calculateDistance(latitude, longitude, coords[1], coords[0])`; the engine
model abstracts it as a function of the same four arguments. -/
abbrev DistFn := ℚ → ℚ → ℚ → ℚ → ℚ

/-- The dedup map, in insertion order (a JavaScript `Map`). -/
abbrev FacilityMap := List (DedupKey × Facility)

/-- The places collaborator: for a (category, pass) query, `none` models a
failed call (`!response.ok` or a thrown error), `some fs` the feature list
of a successful response (an absent or empty `features` array is `some []`,
which the loop treats identically). -/
abbrev PlacesResp := String → RadiusPass → Option (List RawFeature)

/-- The facility object stored for one raw result (hospital variant; the
pharmacy variant omits the inert `category` field). -/
def mkFacility (cfg : SearchConfig) (dist : DistFn) (la lo : ℚ) (cat : String)
    (f : RawFeature) : Facility :=
  { name := mkName cfg f (dist la lo f.lat f.lon), address := mkAddress f,
    latitude := f.lat, longitude := f.lon, distance := dist la lo f.lat f.lon,
    phone := mkPhone f, category := cat }

/-- Processing of one feature inside `data.features.forEach`: compute
distance, synthesize name/key/phone/address, and insert into the map iff
the key is absent and the distance is within the bound. -/
def insertFeature (cfg : SearchConfig) (dist : DistFn) (la lo : ℚ) (cat : String)
    (m : FacilityMap) (f : RawFeature) : FacilityMap :=
  if dedupKeyOf (mkName cfg f (dist la lo f.lat f.lon)) f.lat f.lon ∈ m.map Prod.fst then m
  else if dist la lo f.lat f.lon ≤ cfg.maxDistanceKm then
    m ++ [(dedupKeyOf (mkName cfg f (dist la lo f.lat f.lon)) f.lat f.lon,
           mkFacility cfg dist la lo cat f)]
  else m

/-- One whole radius pass over a successful response body. -/
def runPass (cfg : SearchConfig) (dist : DistFn) (la lo : ℚ) (cat : String)
    (m : FacilityMap) (features : List RawFeature) : FacilityMap :=
  features.foldl (insertFeature cfg dist la lo cat) m

/-- One (category, pass) query: a failed call leaves the map unchanged
(the `continue` / `catch` paths). -/
def queryStep (cfg : SearchConfig) (dist : DistFn) (resp : PlacesResp) (la lo : ℚ)
    (m : FacilityMap) (q : String × RadiusPass) : FacilityMap :=
  match resp q.1 q.2 with
  | none => m
  | some features => runPass cfg dist la lo q.1 m features

/-- The category-by-radius double loop, flattened: the source checks
`if (map.size >= 15) break` after each radius pass and again after each
category, which is equivalent to stopping the flattened query sequence at
the first pass boundary where the map has reached 15 entries.  Also
returns the map size recorded after each issued query (so the query trace
has one entry per external call made). -/
def searchLoop (cfg : SearchConfig) (dist : DistFn) (resp : PlacesResp) (la lo : ℚ) :
    List (String × RadiusPass) → FacilityMap → FacilityMap × List Nat
  | [], m => (m, [])
  | q :: qs, m =>
    if 15 ≤ (queryStep cfg dist resp la lo m q).length then
      (queryStep cfg dist resp la lo m q, [(queryStep cfg dist resp la lo m q).length])
    else
      ((searchLoop cfg dist resp la lo qs (queryStep cfg dist resp la lo m q)).1,
       (queryStep cfg dist resp la lo m q).length ::
         (searchLoop cfg dist resp la lo qs (queryStep cfg dist resp la lo m q)).2)

/-- The full (category, pass) query sequence in source order: categories
outer, radius passes inner. -/
def allQueries (cfg : SearchConfig) : List (String × RadiusPass) :=
  (cfg.categories.map (fun c => cfg.searches.map (fun s => (c, s)))).flatten

/-- The comparator `(a, b) => a.distance - b.distance` as a relation. -/
def distLE (a b : Facility) : Prop := a.distance ≤ b.distance

instance : DecidableRel distLE :=
  fun a b => inferInstanceAs (Decidable (a.distance ≤ b.distance))

instance : IsTotal Facility distLE := ⟨fun a b => le_total a.distance b.distance⟩

instance : IsTrans Facility distLE := ⟨fun _ _ _ h h' => le_trans h h'⟩

/-- `Array.from(map.values()).sort((a, b) => a.distance - b.distance)`:
a stable sort by distance (ES2019 `sort` is stable). -/
def sortByDistance (l : List Facility) : List Facility := List.insertionSort distLE l

/-- The generic search engine: run the double loop from an empty map, then
sort the surviving facilities by distance and truncate to the ceiling
(`.slice(0, ceiling)`). -/
def searchFacilities (cfg : SearchConfig) (dist : DistFn) (resp : PlacesResp)
    (la lo : ℚ) : List Facility :=
  (sortByDistance
    (((searchLoop cfg dist resp la lo (allQueries cfg) []).1).map Prod.snd)).take
    cfg.resultCeiling

/-- `searchHospitalsMultiRadius(latitude, longitude)` with the distance and
places collaborators explicit. -/
def searchHospitalsMultiRadius (dist : DistFn) (resp : PlacesResp) (la lo : ℚ) :
    List Facility :=
  searchFacilities hospitalConfig dist resp la lo

/-- `searchNearbyPharmacies(latitude, longitude)` with the distance and
places collaborators explicit. -/
def searchNearbyPharmacies (dist : DistFn) (resp : PlacesResp) (la lo : ℚ) :
    List Facility :=
  searchFacilities pharmacyConfig dist resp la lo

/-! ## Enrichment pipeline (doctors, medicines), recommendation, routes -/

/-- A doctor record as produced by generation or fallback (numeric JSON
fields as rationals). -/
structure Doctor where
  name : String
  specialization : String
  experience_years : ℚ
  consultation_fee : ℚ
  rating : ℚ
  available_days : String
  available_time : String
  languages : List String
deriving DecidableEq

/-- `Math.round(q + 0.5)`-style JavaScript rounding on rationals:
`Math.round x = floor (x + 1/2)` (half toward positive infinity). -/
def jsRoundQ (q : ℚ) : ℚ := ((q + 1/2).floor : ℤ)

/-- The post-hoc rating fix-up in `generateDoctorsForHospital`:
`if (doc.rating > 4.0) doc.rating = 4.0; doc.rating = Math.round(doc.rating*10)/10`. -/
def clampRating (r : ℚ) : ℚ := jsRoundQ ((if 4 < r then 4 else r) * 10) / 10

/-- The `doctors.forEach` loop applying `clampRating` to every record. -/
def clampDoctors (ds : List Doctor) : List Doctor :=
  ds.map (fun d => { d with rating := clampRating d.rating })

/-- `generateDoctorsForHospital`: the generation collaborator either fails
(request error, non-array or unparsable content — returns `null`, i.e.
`none`) or yields a parsed doctor array, whose ratings are then clamped.
-/
def generateDoctorsForHospital (gen : Option (List Doctor)) : Option (List Doctor) :=
  gen.map clampDoctors

/-- `hospital.name.toLowerCase().includes('hospital')`. -/
def isHospitalName (s : String) : Bool :=
  decide ("hospital".data <:+: (lowerStr s).data)

/-- `getFallbackDoctors(isHospital)`: the deterministic fallback roster,
5 records for hospital-like names and 3 otherwise. -/
def getFallbackDoctors (isHospital : Bool) : List Doctor :=
  let specializations := ["General Physician", "Cardiologist", "Orthopedic", "Pediatrician",
    "Dermatologist"]
  let surnames := ["Kumar", "Sharma", "Patel", "Singh", "Reddy", "Mehta", "Gupta", "Verma",
    "Rao", "Iyer"]
  let numDoctors := if isHospital then 5 else 3
  (List.range numDoctors).map (fun i =>
    { name := "Dr. " ++ surnames.getD (i % surnames.length) "",
      specialization := specializations.getD (i % specializations.length) "",
      experience_years := 8 + (i : ℚ) * 4,
      consultation_fee := 350 + (i : ℚ) * 150,
      rating := jsRoundQ ((35/10 + (i : ℚ) * (1/10)) * 10) / 10,
      available_days := if i % 2 = 0 then "Mon-Sat" else "Mon-Fri",
      available_time := "9:00 AM - 6:00 PM",
      languages := ["English", "Hindi", "Tamil"] })

/-- A medicine inventory record (numeric JSON fields as rationals;
`requires_prescription` is the 0/1 number the source uses). -/
structure Medicine where
  medicine_name : String
  generic_name : String
  category : String
  manufacturer : String
  price : ℚ
  stock_status : String
  quantity : ℚ
  requires_prescription : ℚ
deriving DecidableEq

/-- `getFallbackMedicines()`: the fixed five-item inventory. -/
def getFallbackMedicines : List Medicine :=
  [{ medicine_name := "Crocin 650mg", generic_name := "Paracetamol", category := "Pain Relief",
     manufacturer := "GSK", price := 25, stock_status := "available", quantity := 150,
     requires_prescription := 0 },
   { medicine_name := "Dolo 650", generic_name := "Paracetamol", category := "Fever",
     manufacturer := "Micro Labs", price := 30, stock_status := "available", quantity := 120,
     requires_prescription := 0 },
   { medicine_name := "Disprin", generic_name := "Aspirin", category := "Pain Relief",
     manufacturer := "Reckitt Benckiser", price := 15, stock_status := "available",
     quantity := 100, requires_prescription := 0 },
   { medicine_name := "Vicks Cough Syrup", generic_name := "Dextromethorphan",
     category := "Respiratory", manufacturer := "P&G", price := 85,
     stock_status := "available", quantity := 50, requires_prescription := 0 },
   { medicine_name := "Cetirizine 10mg", generic_name := "Cetirizine", category := "Allergy",
     manufacturer := "Cipla", price := 20, stock_status := "available", quantity := 80,
     requires_prescription := 0 }]

/-- `generateMedicineInventory(pharmacy)`: a failed or unparsable
generation call (`none`) yields `getFallbackMedicines()`; a successful
parse is returned as-is (including an empty array). -/
def generateMedicineInventory (gen : Option (List Medicine)) : List Medicine :=
  gen.getD getFallbackMedicines

/-- The user profile fields the hospital pipeline reads (after the
source-side defaulting `pincode = '600001'`, `state = 'Tamil Nadu'`). -/
structure UserProfile where
  pincode : String
  state : String
deriving DecidableEq

/-- One enriched hospital as assembled in `generateNearbyHospitals`. -/
structure HospitalData where
  name : String
  address : String
  distance : ℚ
  latitude : ℚ
  longitude : ℚ
  phone : String
  facilities : String
  emergency_available : ℕ
  doctors : List Doctor
  hasRealData : Bool
deriving DecidableEq

/-- `getMockHospitals(userProfile)`: the static two-entry mock list. -/
def getMockHospitals (p : UserProfile) : List HospitalData :=
  [{ name := "Apollo Hospitals",
     address := "21 Greams Lane, Near " ++ p.pincode ++ ", " ++ p.state,
     distance := 23/10, latitude := 130569/10000, longitude := 802425/10000,
     phone := "+91 44 2829 3333",
     facilities := "ICU, Emergency, Pharmacy, Lab, X-Ray, MRI, CT Scan",
     emergency_available := 1, hasRealData := false,
     doctors :=
       [{ name := "Dr. Rajesh Kumar", specialization := "Cardiologist",
          experience_years := 15, consultation_fee := 800, rating := 39/10,
          available_days := "Mon-Sat", available_time := "9:00 AM - 5:00 PM",
          languages := ["English", "Hindi", "Tamil"] },
        { name := "Dr. Priya Sharma", specialization := "General Physician",
          experience_years := 10, consultation_fee := 500, rating := 38/10,
          available_days := "Mon-Fri", available_time := "10:00 AM - 6:00 PM",
          languages := ["English", "Hindi"] }] },
   { name := "City Health Clinic",
     address := "Main Road, " ++ p.pincode ++ ", " ++ p.state,
     distance := 15/10, latitude := 1305/100, longitude := 8024/100,
     phone := "Not available",
     facilities := "OPD, Consultation, Lab, Pharmacy",
     emergency_available := 0, hasRealData := false,
     doctors :=
       [{ name := "Dr. Anil Mehta", specialization := "General Physician",
          experience_years := 12, consultation_fee := 400, rating := 37/10,
          available_days := "Mon-Sat", available_time := "9:00 AM - 6:00 PM",
          languages := ["English", "Hindi", "Tamil"] }] }]

/-- One iteration of the enrichment loop in `generateNearbyHospitals`:
build the `hospitalData` object for one facility, attaching either the
generated-and-clamped doctors or, when the generation call returned
`null`, the fallback roster (`doctors || getFallbackDoctors(isHospital)`;
note a successfully parsed empty array is truthy in JavaScript and is
attached unchanged). -/
def enrichHospital (gen : Facility → Option (List Doctor)) (h : Facility) : HospitalData :=
  let doctors := generateDoctorsForHospital (gen h)
  let isHosp := isHospitalName h.name
  { name := h.name, address := h.address, distance := h.distance,
    latitude := h.latitude, longitude := h.longitude, phone := h.phone,
    facilities := if isHosp then "ICU, Emergency, OPD, Lab, X-Ray, Pharmacy, CT Scan"
                  else "OPD, Consultation, Lab, Pharmacy",
    emergency_available := if isHosp then 1 else 0,
    doctors := doctors.getD (getFallbackDoctors isHosp),
    hasRealData := doctors.isSome }

/-- One iteration of the enrichment loop: push the enriched facility onto
either the real-data array or the mock-data array
(`hospitalsWithRealDoctors.push` / `hospitalsWithMockDoctors.push`). -/
def processStep (gen : Facility → Option (List Doctor))
    (acc : List HospitalData × List HospitalData) (h : Facility) :
    List HospitalData × List HospitalData :=
  if (enrichHospital gen h).hasRealData then (acc.1 ++ [enrichHospital gen h], acc.2)
  else (acc.1, acc.2 ++ [enrichHospital gen h])

/-- The enrichment loop of `generateNearbyHospitals`: each facility is
pushed, in ranked order, onto either the real-data list or the mock-data
list according to whether its generation call succeeded. -/
def processHospitals (gen : Facility → Option (List Doctor)) (hs : List Facility) :
    List HospitalData × List HospitalData :=
  hs.foldl (processStep gen) ([], [])

/-- `generateNearbyHospitals(userProfile)` with the geocoder, distance,
places and generation collaborators explicit: geocode failure
(`userCoords === null`) and an empty search result both degrade to
`getMockHospitals`; otherwise the enriched real-data group is returned
ahead of the fallback group
(`[...hospitalsWithRealDoctors, ...hospitalsWithMockDoctors]`). -/
def generateNearbyHospitals (geo : Option (ℚ × ℚ)) (dist : DistFn) (resp : PlacesResp)
    (gen : Facility → Option (List Doctor)) (p : UserProfile) : List HospitalData :=
  match geo with
  | none => getMockHospitals p
  | some (la, lo) =>
    let hospitals := searchHospitalsMultiRadius dist resp la lo
    if hospitals.length = 0 then getMockHospitals p
    else
      let pr := processHospitals gen hospitals
      pr.1 ++ pr.2

/-- The recommendation object shape returned by `getAIRecommendation`. -/
structure Recommendation where
  recommendedHospital : String
  reason : String
  urgencyLevel : String
  suggestedTests : List String
  alternativeHospitals : List String
deriving DecidableEq

/-- The string interpolation of `hospitals[0]?.distance` in the fallback
reason template (`undefined` for an empty list; the decimal rendering of
a JavaScript number is abstracted by `toString` on the rational). -/
def showHeadDistance (hs : List HospitalData) : String :=
  match hs.head? with
  | none => "undefined"
  | some h => toString h.distance

/-- The deterministic fallback object of `getAIRecommendation`.  The
recommended name is `hospitals[0]?.name || 'N/A'`: the `||` treats both an
absent head and an empty-string name as falsy, exactly as `firstTruthy`
models the chain. -/
def fallbackRecommendation (hospitals : List HospitalData) : Recommendation :=
  { recommendedHospital := firstTruthy [hospitals.head?.map HospitalData.name] "N/A",
    reason := "Nearest facility at " ++ showHeadDistance hospitals ++
      "km with appropriate services.",
    urgencyLevel := "routine",
    suggestedTests := [],
    alternativeHospitals := ((hospitals.drop 1).take 2).map HospitalData.name }

/-- `getAIRecommendation(userProfile, symptoms, hospitals)` with the
generation-and-parse step explicit: `some r` is a successfully parsed
response, `none` any request or parse failure (the `catch` branch). -/
def getAIRecommendation (ai : Option Recommendation) (hospitals : List HospitalData) :
    Recommendation :=
  match ai with
  | some r => r
  | none => fallbackRecommendation hospitals

/-- The `/api/medicines/pharmacies/nearby` handler body after the session
check (persistence and JSON shaping omitted): geocode failure returns
the hard HTTP 400 error `Unable to locate address`; otherwise every found
pharmacy is paired with its generated-or-fallback inventory. -/
def pharmaciesNearbyRoute (geo : Option (ℚ × ℚ)) (dist : DistFn) (resp : PlacesResp)
    (gen : Facility → Option (List Medicine)) :
    Except Nat (List (Facility × List Medicine)) :=
  match geo with
  | none => Except.error 400
  | some (la, lo) =>
    let pharmacies := searchNearbyPharmacies dist resp la lo
    Except.ok (pharmacies.map (fun ph => (ph, generateMedicineInventory (gen ph))))

/-! ## Concrete collaborators and inputs for witnesses and counterexamples -/

/-- A raw feature with every optional field absent. -/
def bareFeature (lat lon : ℚ) : RawFeature :=
  { name := none, addressLine1 := none, street := none, formatted := none,
    addressLine2 := none, city := none, lat := lat, lon := lon,
    rawPhone := none, contactPhone := none }

/-- A raw result whose provider name is the purely numeric string `12345`. -/
def numericNameFeature : RawFeature := { bareFeature 0 0 with name := some "12345" }

/-- A distance collaborator that reports 1 km for every pair. -/
def constDist : DistFn := fun _ _ _ _ => 1

/-- A distance collaborator that reports the feature latitude as distance. -/
def latDist : DistFn := fun _ _ lat _ => lat

/-- `n` nameless features on distinct rounded coordinates. -/
def gridFeatures (n : Nat) : List RawFeature :=
  (List.range n).map (fun i => bareFeature (i : ℚ) 0)

/-- A places collaborator returning the same `n` features on every query. -/
def respEvery (n : Nat) : PlacesResp := fun _ _ => some (gridFeatures n)

/-- A places collaborator failing on every query. -/
def respNone : PlacesResp := fun _ _ => none

/-- The facility `Apollo Hospital` at rounded coordinate (13.051, 80.241). -/
def apolloFeature : RawFeature :=
  { bareFeature (13051/1000) (80241/1000) with name := some "Apollo Hospital" }

/-- A synthetic places collaborator returning the same named facility under
two different query categories (first radius pass of each). -/
def respApollo : PlacesResp := fun c s =>
  if (c = "healthcare.hospital" ∨ c = "healthcare.clinic") ∧ s.radius = 1000
  then some [apolloFeature] else some []

/-- A places collaborator returning two nameless features with latitudes 1
and 2 on the very first hospital query only. -/
def respTwoLats : PlacesResp := fun c s =>
  if c = "healthcare.hospital" ∧ s.radius = 1000
  then some [bareFeature 1 0, bareFeature 2 0] else some []

/-- A concrete generated doctor record. -/
def sampleDoctor : Doctor :=
  { name := "Dr. Kumar", specialization := "General Physician", experience_years := 10,
    consultation_fee := 500, rating := 38/10, available_days := "Mon-Sat",
    available_time := "9:00 AM - 6:00 PM", languages := ["English"] }

/-- A generated doctor record whose rating is below the claimed 3.5 bound. -/
def lowRatingDoctor : Doctor := { sampleDoctor with rating := 2 }

/-- A generation collaborator succeeding exactly on facilities at 2 km. -/
def genSucceedFar : Facility → Option (List Doctor) := fun h =>
  if h.distance = 2 then some [sampleDoctor] else none

/-- A generation collaborator that successfully parses an empty array on
every call. -/
def genEmptyList : Facility → Option (List Doctor) := fun _ => some []

/-- A generation collaborator failing on every call. -/
def genFailAll : Facility → Option (List Doctor) := fun _ => none

/-- A medicine-generation collaborator failing on every call. -/
def genMedFailAll : Facility → Option (List Medicine) := fun _ => none

/-- The defaulted user profile of the source (`pincode = '600001'`,
`state = 'Tamil Nadu'`). -/
def profileC : UserProfile := { pincode := "600001", state := "Tamil Nadu" }

/-- The single facility produced by `respEvery 1` under `constDist`. -/
def centerFacility : Facility :=
  { name := "Healthcare Center", address := "Address not available",
    latitude := 0, longitude := 0, distance := 1,
    phone := "Not available", category := "healthcare.hospital" }

/-- A concrete enriched hospital record. -/
def sampleHospitalData : HospitalData :=
  { name := "City Care Hospital", address := "Main Road", distance := 2, latitude := 13,
    longitude := 80, phone := "Not available", facilities := "OPD",
    emergency_available := 1, doctors := [sampleDoctor], hasRealData := true }

/-! ## Theorems -/

theorem havA_symm (lat1 lon1 lat2 lon2 : ℝ) :
    havA lat1 lon1 lat2 lon2 = havA lat2 lon2 lat1 lon1 := by
  unfold havA
  have h1 : (lat1 - lat2) * Real.pi / 180 / 2 = -((lat2 - lat1) * Real.pi / 180 / 2) := by ring
  have h2 : (lon1 - lon2) * Real.pi / 180 / 2 = -((lon2 - lon1) * Real.pi / 180 / 2) := by ring
  rw [h1, h2, Real.sin_neg, Real.sin_neg]
  ring

theorem havA_self (lat lon : ℝ) : havA lat lon lat lon = 0 := by
  unfold havA
  have h : (lat - lat) * Real.pi / 180 / 2 = 0 := by ring
  have h' : (lon - lon) * Real.pi / 180 / 2 = 0 := by ring
  rw [h, h', Real.sin_zero]
  ring

theorem calculateDistance_self (lat lon : ℝ) : calculateDistance lat lon lat lon = 0 := by
  unfold calculateDistance
  rw [havA_self]
  have h1 : Real.sqrt 0 = 0 := Real.sqrt_zero
  have h2 : Real.sqrt (1 - 0) = 1 := by rw [sub_zero, Real.sqrt_one]
  rw [h1, h2]
  have h3 : jsAtan2 0 1 = 0 := by
    unfold jsAtan2
    have : (⟨1, 0⟩ : ℂ) = 1 := Complex.ext rfl rfl
    rw [this, Complex.arg_one]
  rw [h3]
  have h4 : (6371 : ℝ) * (2 * 0) * 10 = 0 := by ring
  rw [h4]
  unfold jsRoundR
  have h5 : ⌊(0 : ℝ) + 1/2⌋ = 0 := by
    rw [zero_add]
    rw [Int.floor_eq_zero_iff]
    constructor <;> norm_num
  rw [h5]
  norm_num

theorem calculateDistance_symm (lat1 lon1 lat2 lon2 : ℝ) :
    calculateDistance lat1 lon1 lat2 lon2 = calculateDistance lat2 lon2 lat1 lon1 := by
  unfold calculateDistance
  rw [havA_symm]

/-! ### Dedup-map invariant -/

/-- Invariant of the dedup map: stored keys are pairwise distinct, every
stored key is the dedup key recomputed from its facility, and every stored
facility is within the configured distance bound. -/
def MapInv (cfg : SearchConfig) (m : FacilityMap) : Prop :=
  m.Pairwise (fun a b => a.1 ≠ b.1) ∧
  ∀ e ∈ m, e.1 = dedupKey e.2 ∧ e.2.distance ≤ cfg.maxDistanceKm

theorem mapInv_nil (cfg : SearchConfig) : MapInv cfg [] :=
  ⟨List.Pairwise.nil, by simp⟩

theorem insertFeature_inv {cfg : SearchConfig} {dist : DistFn} {la lo : ℚ} {cat : String}
    {m : FacilityMap} {f : RawFeature} (h : MapInv cfg m) :
    MapInv cfg (insertFeature cfg dist la lo cat m f) := by
  unfold insertFeature
  split_ifs with hmem hd
  · exact h
  · constructor
    · rw [List.pairwise_append]
      refine ⟨h.1, List.pairwise_singleton _ _, ?_⟩
      intro a ha b hb
      rw [List.mem_singleton] at hb
      subst hb
      intro hk
      apply hmem
      have hk' : a.1 = dedupKeyOf (mkName cfg f (dist la lo f.lat f.lon)) f.lat f.lon := hk
      rw [← hk']
      exact List.mem_map_of_mem Prod.fst ha
    · intro e he
      rw [List.mem_append, List.mem_singleton] at he
      rcases he with he | he
      · exact h.2 e he
      · subst he
        exact ⟨rfl, hd⟩
  · exact h

theorem runPass_inv {cfg : SearchConfig} {dist : DistFn} {la lo : ℚ} {cat : String} :
    ∀ (fs : List RawFeature) (m : FacilityMap), MapInv cfg m →
      MapInv cfg (runPass cfg dist la lo cat m fs)
  | [], _, h => h
  | f :: fs, m, h => runPass_inv fs (insertFeature cfg dist la lo cat m f) (insertFeature_inv h)

theorem queryStep_inv {cfg : SearchConfig} {dist : DistFn} {resp : PlacesResp} {la lo : ℚ}
    {m : FacilityMap} {q : String × RadiusPass} (h : MapInv cfg m) :
    MapInv cfg (queryStep cfg dist resp la lo m q) := by
  unfold queryStep
  cases resp q.1 q.2 with
  | none => exact h
  | some fs => exact runPass_inv fs m h

theorem searchLoop_inv {cfg : SearchConfig} {dist : DistFn} {resp : PlacesResp} {la lo : ℚ} :
    ∀ (qs : List (String × RadiusPass)) (m : FacilityMap), MapInv cfg m →
      MapInv cfg (searchLoop cfg dist resp la lo qs m).1
  | [], _, h => h
  | q :: qs, m, h => by
    simp only [searchLoop]
    split_ifs with hlen
    · exact queryStep_inv h
    · exact searchLoop_inv qs (queryStep cfg dist resp la lo m q) (queryStep_inv h)

/-- The two C1-style invariants of the generic engine output: pairwise
distinct dedup keys, and every distance within the configured bound. -/
theorem searchFacilities_dedup_and_bound (cfg : SearchConfig) (dist : DistFn)
    (resp : PlacesResp) (la lo : ℚ) :
    (searchFacilities cfg dist resp la lo).Pairwise (fun a b => dedupKey a ≠ dedupKey b) ∧
    ∀ fac ∈ searchFacilities cfg dist resp la lo, fac.distance ≤ cfg.maxDistanceKm := by
  have hinv := @searchLoop_inv cfg dist resp la lo (allQueries cfg) [] (mapInv_nil cfg)
  have hvals : ((searchLoop cfg dist resp la lo (allQueries cfg) []).1.map
      Prod.snd).Pairwise (fun a b => dedupKey a ≠ dedupKey b) := by
    rw [List.pairwise_map]
    refine List.Pairwise.imp_of_mem ?_ hinv.1
    intro a b ha hb hne
    have hka := (hinv.2 a ha).1
    have hkb := (hinv.2 b hb).1
    rw [hka, hkb] at hne
    exact hne
  have hperm := List.perm_insertionSort distLE
    ((searchLoop cfg dist resp la lo (allQueries cfg) []).1.map Prod.snd)
  have hsorted_pairwise : (sortByDistance
      ((searchLoop cfg dist resp la lo (allQueries cfg) []).1.map Prod.snd)).Pairwise
      (fun a b => dedupKey a ≠ dedupKey b) := by
    refine (hperm.pairwise_iff ?_).mpr hvals
    intro x y hxy heq
    exact hxy heq.symm
  constructor
  · exact List.Pairwise.sublist (List.take_sublist _ _) hsorted_pairwise
  · intro fac hfac
    have hmem1 : fac ∈ sortByDistance
        ((searchLoop cfg dist resp la lo (allQueries cfg) []).1.map Prod.snd) :=
      (List.take_sublist _ _).subset hfac
    have hmem2 : fac ∈ (searchLoop cfg dist resp la lo (allQueries cfg) []).1.map Prod.snd :=
      hperm.mem_iff.mp hmem1
    rw [List.mem_map] at hmem2
    obtain ⟨e, he, hfe⟩ := hmem2
    rw [← hfe]
    exact (hinv.2 e he).2

/-! ### Sortedness, length and stability of the ranked output -/

theorem searchFacilities_sorted (cfg : SearchConfig) (dist : DistFn) (resp : PlacesResp)
    (la lo : ℚ) : List.Sorted distLE (searchFacilities cfg dist resp la lo) :=
  List.Pairwise.sublist (List.take_sublist _ _) (List.sorted_insertionSort distLE _)

theorem searchFacilities_length (cfg : SearchConfig) (dist : DistFn) (resp : PlacesResp)
    (la lo : ℚ) : (searchFacilities cfg dist resp la lo).length ≤ cfg.resultCeiling :=
  List.length_take_le _ _

theorem orderedInsert_filter_eq (d : ℚ) (x : Facility) (hx : x.distance = d) :
    ∀ l : List Facility,
      (List.orderedInsert distLE x l).filter (fun f => f.distance == d) =
        x :: l.filter (fun f => f.distance == d)
  | [] => by simp [hx]
  | y :: l => by
    by_cases hle : distLE x y
    · rw [List.orderedInsert_of_le distLE l hle]
      simp [List.filter_cons, hx]
    · have hy : (y.distance == d) = false := by
        have hlt : y.distance < x.distance := lt_of_not_le hle
        have : y.distance ≠ d := by
          rw [← hx]
          exact ne_of_lt hlt
        simpa using this
      simp only [List.orderedInsert, if_neg hle]
      rw [List.filter_cons, List.filter_cons, hy]
      simp only [Bool.false_eq_true, if_false]
      exact orderedInsert_filter_eq d x hx l

theorem orderedInsert_filter_ne (d : ℚ) (x : Facility) (hx : x.distance ≠ d) :
    ∀ l : List Facility,
      (List.orderedInsert distLE x l).filter (fun f => f.distance == d) =
        l.filter (fun f => f.distance == d)
  | [] => by simp [hx]
  | y :: l => by
    by_cases hle : distLE x y
    · rw [List.orderedInsert_of_le distLE l hle]
      rw [List.filter_cons]
      have hxb : (x.distance == d) = false := by simpa using hx
      rw [hxb]
      simp
    · simp only [List.orderedInsert, if_neg hle]
      rw [List.filter_cons, List.filter_cons]
      rw [orderedInsert_filter_ne d x hx l]

/-- Stability of the ranked output: the sort keeps elements of one distance
class in discovery order, so filtering one distance class commutes with the
sort. -/
theorem sortByDistance_stable (d : ℚ) :
    ∀ l : List Facility,
      (sortByDistance l).filter (fun f => f.distance == d) =
        l.filter (fun f => f.distance == d)
  | [] => rfl
  | x :: l => by
    show (List.orderedInsert distLE x (List.insertionSort distLE l)).filter _ = _
    have ih : (List.insertionSort distLE l).filter (fun f => f.distance == d) =
        l.filter (fun f => f.distance == d) := sortByDistance_stable d l
    by_cases hx : x.distance = d
    · rw [orderedInsert_filter_eq d x hx (List.insertionSort distLE l)]
      rw [ih, List.filter_cons]
      have hxb : (x.distance == d) = true := by simpa using hx
      rw [hxb]
      simp
    · rw [orderedInsert_filter_ne d x hx (List.insertionSort distLE l)]
      rw [ih, List.filter_cons]
      have hxb : (x.distance == d) = false := by simpa using hx
      rw [hxb]
      simp

/-! ### The break threshold of the category-by-radius loop -/

theorem searchLoop_sizes_lt {cfg : SearchConfig} {dist : DistFn} {resp : PlacesResp}
    {la lo : ℚ} :
    ∀ (qs : List (String × RadiusPass)) (m : FacilityMap),
      ∀ s ∈ (searchLoop cfg dist resp la lo qs m).2.dropLast, s < 15
  | [], m => by simp [searchLoop]
  | q :: qs, m => by
    simp only [searchLoop]
    split_ifs with hlen
    · simp
    · intro s hs
      rcases hrest : (searchLoop cfg dist resp la lo qs (queryStep cfg dist resp la lo m q)).2
        with _ | ⟨a, t⟩
      · rw [hrest] at hs
        simp at hs
      · rw [hrest] at hs
        rw [List.dropLast_cons₂] at hs
        rcases List.mem_cons.mp hs with hs | hs
        · subst hs
          exact Nat.lt_of_not_le hlen
        · have hrec := @searchLoop_sizes_lt cfg dist resp la lo qs
            (queryStep cfg dist resp la lo m q) s
          rw [hrest] at hrec
          exact hrec hs

theorem searchLoop_early_stop {cfg : SearchConfig} {dist : DistFn} {resp : PlacesResp}
    {la lo : ℚ} :
    ∀ (qs : List (String × RadiusPass)) (m : FacilityMap),
      (searchLoop cfg dist resp la lo qs m).2.length < qs.length →
      ∃ s, (searchLoop cfg dist resp la lo qs m).2.getLast? = some s ∧ 15 ≤ s
  | [], m => by simp [searchLoop]
  | q :: qs, m => by
    simp only [searchLoop]
    split_ifs with hlen
    · intro _
      exact ⟨(queryStep cfg dist resp la lo m q).length, rfl, hlen⟩
    · intro hl
      simp only [List.length_cons] at hl
      have hr := searchLoop_early_stop qs (queryStep cfg dist resp la lo m q)
        (Nat.lt_of_succ_lt_succ hl)
      obtain ⟨s, hs1, hs2⟩ := hr
      refine ⟨s, ?_, hs2⟩
      rcases hrest : (searchLoop cfg dist resp la lo qs (queryStep cfg dist resp la lo m q)).2
        with _ | ⟨a, t⟩
      · rw [hrest] at hs1
        simp at hs1
      · rw [hrest] at hs1
        show (List.length (queryStep cfg dist resp la lo m q) :: a :: t).getLast? = some s
        rw [List.getLast?_cons_cons]
        exact hs1

/-! ### Enrichment loop and degraded modes -/

theorem processStep_foldl (gen : Facility → Option (List Doctor)) :
    ∀ (hs : List Facility) (acc : List HospitalData × List HospitalData),
      hs.foldl (processStep gen) acc =
        (acc.1 ++ (hs.map (enrichHospital gen)).filter (fun h => h.hasRealData),
         acc.2 ++ (hs.map (enrichHospital gen)).filter (fun h => !h.hasRealData))
  | [], acc => by simp
  | h :: hs, acc => by
    rw [List.foldl_cons, processStep_foldl gen hs]
    unfold processStep
    by_cases hr : (enrichHospital gen h).hasRealData
    · rw [if_pos hr]
      simp [List.filter_cons, hr, List.append_assoc]
    · rw [if_neg hr]
      have hr' : (enrichHospital gen h).hasRealData = false := by
        simpa using hr
      simp [List.filter_cons, hr', List.append_assoc]

/-- The enrichment loop is the stable partition of the enriched ranked list
by generation success. -/
theorem processHospitals_eq_filters (gen : Facility → Option (List Doctor))
    (hs : List Facility) :
    processHospitals gen hs =
      ((hs.map (enrichHospital gen)).filter (fun h => h.hasRealData),
       (hs.map (enrichHospital gen)).filter (fun h => !h.hasRealData)) := by
  unfold processHospitals
  rw [processStep_foldl gen hs]
  simp

theorem searchLoop_respNone {cfg : SearchConfig} {dist : DistFn} {la lo : ℚ} :
    ∀ (qs : List (String × RadiusPass)) (m : FacilityMap),
      (searchLoop cfg dist respNone la lo qs m).1 = m
  | [], _ => rfl
  | q :: qs, m => by
    simp only [searchLoop]
    rw [show queryStep cfg dist respNone la lo m q = m from rfl]
    split_ifs with h
    · rfl
    · exact searchLoop_respNone qs m

/-- When the places collaborator fails on every call, the engine returns
the empty sequence. -/
theorem searchFacilities_respNone (cfg : SearchConfig) (dist : DistFn) (la lo : ℚ) :
    searchFacilities cfg dist respNone la lo = [] := by
  unfold searchFacilities
  rw [searchLoop_respNone (allQueries cfg) []]
  simp [sortByDistance]

/-! ### Claim theorems -/

set_option maxRecDepth 10000

/-- C8: the distance calculator is pure and total (a total Lean function),
vanishes on two identical coordinates — in particular at ((0,0),(0,0)) —
and is symmetric in its two coordinate arguments for all inputs. -/
theorem claim_C8_distance_zero_and_symmetric :
    (∀ lat lon : ℝ, calculateDistance lat lon lat lon = 0) ∧
    (∀ lat1 lon1 lat2 lon2 : ℝ,
      calculateDistance lat1 lon1 lat2 lon2 = calculateDistance lat2 lon2 lat1 lon1) :=
  ⟨calculateDistance_self, calculateDistance_symm⟩

/-- C1: in every hospital result set no two facilities share a dedup key
and every facility is within 15 km; in every pharmacy result set the same
holds with 10 km; and the synthetic places collaborator returning the same
named facility at rounded coordinate (13.051, 80.241) under two different
categories from origin (13.05, 80.24) yields exactly one facility. -/
theorem claim_C1_dedup_unique_and_distance_bounded :
    (∀ (dist : DistFn) (resp : PlacesResp) (la lo : ℚ),
      (searchHospitalsMultiRadius dist resp la lo).Pairwise
        (fun a b => dedupKey a ≠ dedupKey b) ∧
      ∀ fac ∈ searchHospitalsMultiRadius dist resp la lo, fac.distance ≤ 15) ∧
    (∀ (dist : DistFn) (resp : PlacesResp) (la lo : ℚ),
      (searchNearbyPharmacies dist resp la lo).Pairwise
        (fun a b => dedupKey a ≠ dedupKey b) ∧
      ∀ fac ∈ searchNearbyPharmacies dist resp la lo, fac.distance ≤ 10) ∧
    (searchHospitalsMultiRadius constDist respApollo (1305/100) (8024/100)).map
        Facility.name = ["Apollo Hospital"] := by
  refine ⟨?_, ?_, ?_⟩
  · intro dist resp la lo
    exact searchFacilities_dedup_and_bound hospitalConfig dist resp la lo
  · intro dist resp la lo
    exact searchFacilities_dedup_and_bound pharmacyConfig dist resp la lo
  · with_unfolding_all decide

/-- Witness for C1 at a concrete input: a facility belonging to a concrete
hospital search result satisfies the distance bound. -/
theorem claim_C1_witness : centerFacility.distance ≤ 15 :=
  (claim_C1_dedup_unique_and_distance_bounded.1 constDist (respEvery 1) 13 80).2
    centerFacility (by with_unfolding_all decide)

/-- C2: the returned sequence is sorted ascending by distance, its length
is at most the ceiling (10 hospitals, 12 pharmacies), and the sort is
stable: for every distance class, filtering the sorted map values yields
the discovery-ordered sublist unchanged. -/
theorem claim_C2_sorted_stable_and_bounded :
    (∀ (dist : DistFn) (resp : PlacesResp) (la lo : ℚ),
      List.Sorted distLE (searchHospitalsMultiRadius dist resp la lo) ∧
      (searchHospitalsMultiRadius dist resp la lo).length ≤ 10 ∧
      ∀ d : ℚ,
        (sortByDistance ((searchLoop hospitalConfig dist resp la lo
            (allQueries hospitalConfig) []).1.map Prod.snd)).filter
            (fun f => f.distance == d) =
          ((searchLoop hospitalConfig dist resp la lo
            (allQueries hospitalConfig) []).1.map Prod.snd).filter
            (fun f => f.distance == d)) ∧
    (∀ (dist : DistFn) (resp : PlacesResp) (la lo : ℚ),
      List.Sorted distLE (searchNearbyPharmacies dist resp la lo) ∧
      (searchNearbyPharmacies dist resp la lo).length ≤ 12 ∧
      ∀ d : ℚ,
        (sortByDistance ((searchLoop pharmacyConfig dist resp la lo
            (allQueries pharmacyConfig) []).1.map Prod.snd)).filter
            (fun f => f.distance == d) =
          ((searchLoop pharmacyConfig dist resp la lo
            (allQueries pharmacyConfig) []).1.map Prod.snd).filter
            (fun f => f.distance == d)) := by
  constructor
  · intro dist resp la lo
    exact ⟨searchFacilities_sorted hospitalConfig dist resp la lo,
      searchFacilities_length hospitalConfig dist resp la lo,
      fun d => sortByDistance_stable d _⟩
  · intro dist resp la lo
    exact ⟨searchFacilities_sorted pharmacyConfig dist resp la lo,
      searchFacilities_length pharmacyConfig dist resp la lo,
      fun d => sortByDistance_stable d _⟩

/-- C3 counterexample: with a collaborator returning ten distinct in-range
facilities on every query, the hospital dedup set holds 10 = resultCeiling
entries after the very first radius pass, yet the loop still issues all 16
(category, pass) queries — the short-circuit does not fire at the result
ceiling. -/
theorem claim_C3_counterexample :
    ¬ (∀ s ∈ ((searchLoop hospitalConfig constDist (respEvery 10) 13 80
          (allQueries hospitalConfig) []).2).dropLast, s < hospitalConfig.resultCeiling) ∧
    ((searchLoop hospitalConfig constDist (respEvery 10) 13 80
        (allQueries hospitalConfig) []).2).length = (allQueries hospitalConfig).length := by
  constructor
  · with_unfolding_all decide
  · with_unfolding_all decide

/-- C3 amended: the double loop short-circuits at the fixed break threshold
of 15 map entries — not at the result ceiling (10 or 12), which only
truncates the final slice.  After every issued query except the last the
set holds fewer than 15 entries, and if the loop stopped before exhausting
the query sequence then the last recorded size reached 15. -/
theorem claim_C3_amended_break_threshold_is_15 :
    ∀ (cfg : SearchConfig) (dist : DistFn) (resp : PlacesResp) (la lo : ℚ),
      (∀ s ∈ (searchLoop cfg dist resp la lo (allQueries cfg) []).2.dropLast, s < 15) ∧
      ((searchLoop cfg dist resp la lo (allQueries cfg) []).2.length <
          (allQueries cfg).length →
        ∃ s, (searchLoop cfg dist resp la lo (allQueries cfg) []).2.getLast? = some s ∧
          15 ≤ s) :=
  fun cfg dist resp la lo =>
    ⟨@searchLoop_sizes_lt cfg dist resp la lo (allQueries cfg) [],
     @searchLoop_early_stop cfg dist resp la lo (allQueries cfg) []⟩

/-- Witness for the amended C3: with fifteen distinct in-range facilities
returned on the first query, the loop stops early and its last recorded
size is at least 15. -/
theorem claim_C3_amended_witness :
    ∃ s, (searchLoop hospitalConfig constDist (respEvery 15) 13 80
        (allQueries hospitalConfig) []).2.getLast? = some s ∧ 15 ≤ s :=
  (claim_C3_amended_break_threshold_is_15 hospitalConfig constDist (respEvery 15) 13 80).2
    (by with_unfolding_all decide)

theorem ratFloor_eq_intFloor (q : ℚ) : q.floor = ⌊q⌋ := rfl

theorem clampRating_le_four (r : ℚ) : clampRating r ≤ 4 := by
  unfold clampRating jsRoundQ
  have h1 : (if 4 < r then (4:ℚ) else r) ≤ 4 := by
    split_ifs with h
    · exact le_refl 4
    · exact le_of_not_lt h
  have h2 : ((if 4 < r then (4:ℚ) else r) * 10 + 1/2) ≤ 81/2 := by linarith
  have h3 : ((if 4 < r then (4:ℚ) else r) * 10 + 1/2).floor ≤ ((81:ℚ)/2).floor := by
    rw [ratFloor_eq_intFloor, ratFloor_eq_intFloor]
    exact Int.floor_le_floor h2
  have h4 : ((81:ℚ)/2).floor = 40 := by with_unfolding_all decide
  rw [h4] at h3
  have h5 : (((((if 4 < r then (4:ℚ) else r) * 10 + 1/2).floor : ℤ)) : ℚ) ≤ 40 := by
    exact_mod_cast h3
  linarith

/-- C4 amended: the rating fix-up clamps only from above — every rating in
an enriched record is at most 4.0 and a one-decimal value (an integer
number of tenths), and a generator output of 4.8 yields 4.0; but there is
no lower clamp, so the claimed lower bound 3.5 can be violated by a low
generator output. -/
theorem claim_C4_amended_upper_clamp_only :
    (∀ (ds : List Doctor), ∀ d ∈ clampDoctors ds,
      d.rating ≤ 4 ∧ ∃ n : ℤ, d.rating = (n : ℚ) / 10) ∧
    clampRating (24/5) = 4 := by
  constructor
  · intro ds d hd
    rw [clampDoctors, List.mem_map] at hd
    obtain ⟨d0, _, rfl⟩ := hd
    refine ⟨clampRating_le_four d0.rating, ?_⟩
    exact ⟨((if 4 < d0.rating then (4:ℚ) else d0.rating) * 10 + 1/2).floor, rfl⟩
  · with_unfolding_all decide

/-- Witness for the amended C4 at a concrete enriched record. -/
theorem claim_C4_amended_witness :
    ({ sampleDoctor with rating := clampRating sampleDoctor.rating } : Doctor).rating ≤ 4 ∧
    ∃ n : ℤ, ({ sampleDoctor with rating := clampRating sampleDoctor.rating } : Doctor).rating
      = (n : ℚ) / 10 :=
  claim_C4_amended_upper_clamp_only.1 [sampleDoctor]
    { sampleDoctor with rating := clampRating sampleDoctor.rating }
    (by with_unfolding_all decide)

/-- C4 counterexample: a generator output of 2 passes through the fix-up
unchanged, so the enriched rating 2 is below the claimed lower bound 3.5.
-/
theorem claim_C4_counterexample :
    (clampDoctors [lowRatingDoctor]).map (fun d => d.rating) = [2] ∧
    ¬ ((7:ℚ)/2 ≤ 2) := by
  constructor
  · with_unfolding_all decide
  · with_unfolding_all decide

/-- C5 amended: when the generation collaborator fails (returns `null`) the
facility is enriched with the non-empty deterministic fallback roster —
exactly 5 doctors when the facility name contains the word `hospital`
(case-insensitive) and exactly 3 otherwise — and a failed medicine
generation yields the fixed non-empty five-item inventory.  (A successful
generation returning an empty array is however attached unchanged, so a
facility can still end up child-less; see the counterexample.) -/
theorem claim_C5_amended_fallback_on_failure :
    (∀ h : Facility,
      (enrichHospital genFailAll h).doctors = getFallbackDoctors (isHospitalName h.name) ∧
      (enrichHospital genFailAll h).doctors.length =
        (if isHospitalName h.name then 5 else 3) ∧
      0 < (enrichHospital genFailAll h).doctors.length) ∧
    (generateMedicineInventory none = getFallbackMedicines ∧
      0 < (generateMedicineInventory none).length) := by
  constructor
  · intro h
    have e : (enrichHospital genFailAll h).doctors =
        getFallbackDoctors (isHospitalName h.name) := rfl
    refine ⟨e, ?_, ?_⟩
    · rw [e]
      cases hh : isHospitalName h.name
      · with_unfolding_all decide
      · with_unfolding_all decide
    · rw [e]
      cases hh : isHospitalName h.name
      · with_unfolding_all decide
      · with_unfolding_all decide
  · exact ⟨rfl, by with_unfolding_all decide⟩

/-- C5 counterexample: a generation collaborator that successfully returns
an empty array on every call (`[]` is truthy, so `doctors || fallback`
keeps it) leaves every one of the ten facilities of a concrete pipeline
run with zero doctors — facilities can be child-less. -/
theorem claim_C5_counterexample :
    (generateNearbyHospitals (some (13, 80)) constDist (respEvery 10) genEmptyList
        profileC).map (fun h => h.doctors.length) = List.replicate 10 0 := by
  with_unfolding_all decide

/-- C6 counterexample: in the pharmacy pipeline a geocode failure is
propagated as the hard HTTP 400 error (`Unable to locate address`), and
when the places collaborator fails on every call the route returns an
empty pharmacies list — not a non-empty mock list. -/
theorem claim_C6_counterexample :
    pharmaciesNearbyRoute none constDist (respEvery 10) genMedFailAll = Except.error 400 ∧
    pharmaciesNearbyRoute (some (13, 80)) constDist respNone genMedFailAll = Except.ok [] := by
  constructor
  · rfl
  · have hs : searchNearbyPharmacies constDist respNone 13 80 = [] :=
      searchFacilities_respNone pharmacyConfig constDist 13 80
    show Except.ok ((searchNearbyPharmacies constDist respNone 13 80).map
      (fun ph => (ph, generateMedicineInventory (genMedFailAll ph)))) = Except.ok []
    rw [hs]
    rfl

/-- C6 amended: only the hospital pipeline degrades to the static
non-empty two-entry mock list — both on geocode failure and when the
places collaborator fails on every call; the pharmacy pipeline instead
returns a hard HTTP 400 error on geocode failure and an empty list when
the places collaborator fails on every call (it has no mock fallback). -/
theorem claim_C6_amended_mock_fallback_hospitals_only :
    (∀ (dist : DistFn) (resp : PlacesResp) (gen : Facility → Option (List Doctor))
        (p : UserProfile),
      generateNearbyHospitals none dist resp gen p = getMockHospitals p) ∧
    (∀ (dist : DistFn) (gen : Facility → Option (List Doctor)) (p : UserProfile) (la lo : ℚ),
      generateNearbyHospitals (some (la, lo)) dist respNone gen p = getMockHospitals p) ∧
    (∀ p : UserProfile, (getMockHospitals p).length = 2) ∧
    (∀ (dist : DistFn) (resp : PlacesResp) (gen : Facility → Option (List Medicine)),
      pharmaciesNearbyRoute none dist resp gen = Except.error 400) ∧
    (∀ (dist : DistFn) (gen : Facility → Option (List Medicine)) (la lo : ℚ),
      pharmaciesNearbyRoute (some (la, lo)) dist respNone gen = Except.ok []) := by
  refine ⟨fun dist resp gen p => rfl, ?_, fun p => rfl, fun dist resp gen => rfl, ?_⟩
  · intro dist gen p la lo
    have hs : searchHospitalsMultiRadius dist respNone la lo = [] :=
      searchFacilities_respNone hospitalConfig dist la lo
    show (if (searchHospitalsMultiRadius dist respNone la lo).length = 0 then getMockHospitals p
      else ((processHospitals gen (searchHospitalsMultiRadius dist respNone la lo)).1 ++
        (processHospitals gen (searchHospitalsMultiRadius dist respNone la lo)).2)) =
      getMockHospitals p
    rw [hs]
    rfl
  · intro dist gen la lo
    have hs : searchNearbyPharmacies dist respNone la lo = [] :=
      searchFacilities_respNone pharmacyConfig dist la lo
    show Except.ok ((searchNearbyPharmacies dist respNone la lo).map
      (fun ph => (ph, generateMedicineInventory (gen ph)))) = Except.ok []
    rw [hs]
    rfl

/-- C7: on any failure of the recommendation call the fallback is
deterministic: the recommended name is `hospitals[0]?.name || 'N/A'`
(string falsiness included, so it is the head of the distance-ranked list
— the nearest candidate when the list is sorted — whenever the head has a
non-empty name, and `N/A` when the head is absent or empty-named), the
reason is the fixed distance template, urgency is `routine`, the suggested
tests are empty, and the alternatives are the next two candidates; an
empty candidate list yields `N/A` with urgency `routine`. -/
theorem claim_C7_deterministic_fallback :
    (∀ hospitals, getAIRecommendation none hospitals = fallbackRecommendation hospitals) ∧
    (∀ hospitals,
      (fallbackRecommendation hospitals).recommendedHospital =
        firstTruthy [hospitals.head?.map HospitalData.name] "N/A" ∧
      (fallbackRecommendation hospitals).reason =
        "Nearest facility at " ++ showHeadDistance hospitals ++
          "km with appropriate services." ∧
      (fallbackRecommendation hospitals).urgencyLevel = "routine" ∧
      (fallbackRecommendation hospitals).suggestedTests = [] ∧
      (fallbackRecommendation hospitals).alternativeHospitals =
        ((hospitals.drop 1).take 2).map HospitalData.name) ∧
    (∀ (hospitals : List HospitalData) (h0 : HospitalData),
      hospitals.head? = some h0 →
      List.Pairwise (fun a b : HospitalData => a.distance ≤ b.distance) hospitals →
      h0.name ≠ "" →
      (fallbackRecommendation hospitals).recommendedHospital = h0.name ∧
      ∀ h ∈ hospitals, h0.distance ≤ h.distance) ∧
    (∀ (hospitals : List HospitalData) (h0 : HospitalData),
      hospitals.head? = some h0 → h0.name = "" →
      (fallbackRecommendation hospitals).recommendedHospital = "N/A") ∧
    ((fallbackRecommendation []).recommendedHospital = "N/A" ∧
      (fallbackRecommendation []).urgencyLevel = "routine") := by
  refine ⟨fun hospitals => rfl, fun hospitals => ⟨rfl, rfl, rfl, rfl, rfl⟩, ?_, ?_, rfl, rfl⟩
  · intro hs h0 hhead hsort hne
    cases hs with
    | nil => simp at hhead
    | cons a t =>
      have ha : a = h0 := by simpa using hhead
      subst ha
      constructor
      · show (if a.name = "" then firstTruthy [] "N/A" else a.name) = a.name
        rw [if_neg hne]
      · intro h hmem
        rcases List.mem_cons.mp hmem with rfl | hmem
        · exact le_refl _
        · exact (List.pairwise_cons.mp hsort).1 h hmem
  · intro hs h0 hhead hname
    cases hs with
    | nil => simp at hhead
    | cons a t =>
      have ha : a = h0 := by simpa using hhead
      subst ha
      show (if a.name = "" then firstTruthy [] "N/A" else a.name) = "N/A"
      rw [if_pos hname]
      rfl

/-- Witness for C7 at a concrete one-candidate list whose head has a
non-empty name. -/
theorem claim_C7_witness :
    (fallbackRecommendation [sampleHospitalData]).recommendedHospital =
      sampleHospitalData.name ∧
    ∀ h ∈ [sampleHospitalData], sampleHospitalData.distance ≤ h.distance :=
  claim_C7_deterministic_fallback.2.2.1 [sampleHospitalData] sampleHospitalData rfl
    (List.pairwise_singleton _ _) (by decide)

/-- C9: whenever the trimmed source name chain is purely numeric or shorter
than 3 characters, the synthesized display name is the domain base followed
by the integer `Math.floor(distance * 10)`, and a purely numeric raw name
is never exposed as the facility name. -/
theorem claim_C9_numeric_name_synthesis :
    ∀ (cfg : SearchConfig) (f : RawFeature) (d : ℚ),
      (isNumericStr (resolvedRawName cfg f) || (resolvedRawName cfg f).length < 3) = true →
      mkName cfg f d = cfg.synthBase ++ " " ++ toString (d * 10).floor ∧
      (isNumericStr (resolvedRawName cfg f) = true →
        mkName cfg f d ≠ resolvedRawName cfg f) := by
  intro cfg f d hcond
  have hname : mkName cfg f d = cfg.synthBase ++ " " ++ toString (d * 10).floor := by
    unfold mkName
    rw [if_pos hcond]
  refine ⟨hname, ?_⟩
  intro hnum heq
  rw [hname] at heq
  have hsp : ' ' ∈ (resolvedRawName cfg f).data := by
    rw [← heq]
    rw [String.data_append, String.data_append]
    refine List.mem_append.mpr (Or.inl ?_)
    refine List.mem_append.mpr (Or.inr ?_)
    show ' ' ∈ (" " : String).data
    decide
  unfold isNumericStr at hnum
  simp only [Bool.and_eq_true] at hnum
  have hall := hnum.2
  rw [List.all_eq_true] at hall
  exact absurd (hall ' ' hsp) (by decide)

/-- Witness for C9: the raw name `12345` at distance 2.3 is synthesized to
`Healthcare Facility 23` (suffix `floor(2.3 * 10) = 23`), not the raw
numeric string. -/
theorem claim_C9_witness :
    ((isNumericStr (resolvedRawName hospitalConfig numericNameFeature) ||
        (resolvedRawName hospitalConfig numericNameFeature).length < 3) = true) ∧
    (mkName hospitalConfig numericNameFeature (23/10) =
        hospitalConfig.synthBase ++ " " ++ toString (((23:ℚ)/10) * 10).floor ∧
      (isNumericStr (resolvedRawName hospitalConfig numericNameFeature) = true →
        mkName hospitalConfig numericNameFeature (23/10) ≠
          resolvedRawName hospitalConfig numericNameFeature)) ∧
    mkName hospitalConfig numericNameFeature (23/10) = "Healthcare Facility 23" :=
  ⟨by with_unfolding_all decide,
   claim_C9_numeric_name_synthesis hospitalConfig numericNameFeature (23/10)
     (by with_unfolding_all decide),
   by with_unfolding_all decide⟩

/-- C10: when the search result is non-empty, the hospital pipeline output
is the enriched ranked list stably partitioned into the group whose doctor
generation succeeded (`hasRealData`) followed by the group that received
fallback doctors; each group stays distance-ascending, but — as the
concrete run shows — the concatenated output need not be ascending when
both groups are non-empty (distances [2, 1]). -/
theorem claim_C10_real_data_group_first :
    (∀ (dist : DistFn) (resp : PlacesResp) (gen : Facility → Option (List Doctor))
        (la lo : ℚ) (p : UserProfile),
      searchHospitalsMultiRadius dist resp la lo ≠ [] →
      generateNearbyHospitals (some (la, lo)) dist resp gen p =
        ((searchHospitalsMultiRadius dist resp la lo).map (enrichHospital gen)).filter
          (fun h => h.hasRealData) ++
        ((searchHospitalsMultiRadius dist resp la lo).map (enrichHospital gen)).filter
          (fun h => !h.hasRealData) ∧
      List.Pairwise (fun a b : HospitalData => a.distance ≤ b.distance)
        (((searchHospitalsMultiRadius dist resp la lo).map (enrichHospital gen)).filter
          (fun h => h.hasRealData)) ∧
      List.Pairwise (fun a b : HospitalData => a.distance ≤ b.distance)
        (((searchHospitalsMultiRadius dist resp la lo).map (enrichHospital gen)).filter
          (fun h => !h.hasRealData))) ∧
    (generateNearbyHospitals (some (13, 80)) latDist respTwoLats genSucceedFar
        profileC).map (fun h => h.distance) = [2, 1] := by
  constructor
  · intro dist resp gen la lo p hne
    have hmapsorted : List.Pairwise (fun a b : HospitalData => a.distance ≤ b.distance)
        ((searchHospitalsMultiRadius dist resp la lo).map (enrichHospital gen)) := by
      rw [List.pairwise_map]
      have hsorted := searchFacilities_sorted hospitalConfig dist resp la lo
      exact hsorted.imp (fun hab => hab)
    refine ⟨?_, ?_, ?_⟩
    · have hlen : ¬ (searchHospitalsMultiRadius dist resp la lo).length = 0 := by
        intro h0
        exact hne (List.length_eq_zero.mp h0)
      show (if (searchHospitalsMultiRadius dist resp la lo).length = 0 then getMockHospitals p
        else ((processHospitals gen (searchHospitalsMultiRadius dist resp la lo)).1 ++
          (processHospitals gen (searchHospitalsMultiRadius dist resp la lo)).2)) = _
      rw [if_neg hlen, processHospitals_eq_filters]
    · exact List.Pairwise.sublist (List.filter_sublist _) hmapsorted
    · exact List.Pairwise.sublist (List.filter_sublist _) hmapsorted
  · with_unfolding_all decide

/-- Witness for C10: the partition equality and per-group sortedness at a
concrete two-facility run in which the farther facility has real data and
the nearer one received fallback data. -/
theorem claim_C10_witness :
    generateNearbyHospitals (some (13, 80)) latDist respTwoLats genSucceedFar profileC =
      ((searchHospitalsMultiRadius latDist respTwoLats 13 80).map
        (enrichHospital genSucceedFar)).filter (fun h => h.hasRealData) ++
      ((searchHospitalsMultiRadius latDist respTwoLats 13 80).map
        (enrichHospital genSucceedFar)).filter (fun h => !h.hasRealData) ∧
    List.Pairwise (fun a b : HospitalData => a.distance ≤ b.distance)
      (((searchHospitalsMultiRadius latDist respTwoLats 13 80).map
        (enrichHospital genSucceedFar)).filter (fun h => h.hasRealData)) ∧
    List.Pairwise (fun a b : HospitalData => a.distance ≤ b.distance)
      (((searchHospitalsMultiRadius latDist respTwoLats 13 80).map
        (enrichHospital genSucceedFar)).filter (fun h => !h.hasRealData)) :=
  claim_C10_real_data_group_first.1 latDist respTwoLats genSucceedFar 13 80 profileC
    (by with_unfolding_all decide)
